import Mathlib

/-!
# k8s-demo: the request handlers of `app/server.js`

The service keeps one module-level boolean (`ready`) and registers five Express
routes.  The handlers are embedded as programs of a small execution monad
`Exec` that threads the process state, records the observable effects of a
handler in chronological order (what is sent on `res`, the outbound `fetch`
call, timer operations, console output) and carries JavaScript exceptions, so
that `try / catch / finally` of the downstream check is modelled as control
flow and not assumed.

What the environment decides is an explicit input of a request: the clock
readings (`Date.now()`, `new Date().toISOString()`), the incoming headers and
how the awaited `fetch` settles.  Handlers are run one after the other; the
interleaving of two in-flight downstream checks is outside this model.  Port
binding (`app.listen`) is not modelled.
-/

namespace K8sDemo

/-! ## Data model -/

/-- Values that occur in the JSON objects passed to `res.json`. -/
inductive JsonValue where
  | bool (b : Bool)
  | num (n : Nat)
  | str (s : String)
  deriving DecidableEq, Repr

/-- Payload of a response: `res.send(text)` or `res.json({...})`, the latter as
the object's fields in the order of the object literal. -/
inductive Body where
  | text (s : String)
  | json (fields : List (String × JsonValue))
  deriving DecidableEq, Repr

/-- What a handler puts on `res`: `res.status(status)` followed by a body. -/
structure Response where
  status : Nat
  body : Body
  deriving DecidableEq, Repr

/-- Observable effects of a handler, in the order they happen. -/
inductive Event where
  | consoleLog (msg : String)
  | setTimeout (id : Nat) (delayMs : Nat)
  | fetch (url : String) (headers : List (String × String))
  | abort (id : Nat)
  | send (r : Response)
  | clearTimeout (id : Nat)
  deriving DecidableEq, Repr

/-- The values fixed at process start (lines 5-6): `downstreamUrl` and
`downstreamTimeoutMs`. -/
structure Config where
  downstreamUrl : String
  downstreamTimeoutMs : Nat
  deriving DecidableEq, Repr

/-- Mutable state of the process: the module variable `ready` (line 8) and the
timer table of the runtime (`timers` holds the ids of the timers that are
scheduled and have neither fired nor been cleared). -/
structure Process where
  ready : Bool
  timers : List Nat
  nextTimer : Nat
  deriving DecidableEq, Repr

/-- State right after the module is loaded: `let ready = true`, no timer. -/
def start : Process := { ready := true, timers := [], nextTimer := 0 }

/-- A thrown JavaScript error object; only `error.message` is read. -/
structure JsError where
  message : String
  deriving DecidableEq, Repr

/-! ## Execution monad -/

/-- Result of running a piece of handler code: its completion (normal value or
thrown error), the process state afterwards and the effects it performed. -/
structure Outcome (α : Type) where
  result : Except JsError α
  state : Process
  events : List Event

/-- Handler code: a function of the process state. -/
def Exec (α : Type) : Type := Process → Outcome α

/-- Return a value without effect. -/
def Exec.pure {α : Type} (a : α) : Exec α :=
  fun s => { result := .ok a, state := s, events := [] }

/-- Sequencing: a thrown error skips the rest of the block. -/
def Exec.bind {α β : Type} (m : Exec α) (f : α → Exec β) : Exec β :=
  fun s =>
    let r := m s
    match r.result with
    | .ok a =>
      let r2 := f a r.state
      { result := r2.result, state := r2.state, events := r.events ++ r2.events }
    | .error e => { result := .error e, state := r.state, events := r.events }

instance : Monad Exec where
  pure := Exec.pure
  bind := Exec.bind

/-- Record one effect. -/
def emit (e : Event) : Exec Unit :=
  fun s => { result := .ok (), state := s, events := [e] }

/-- Complete abruptly with the error `e` (a `throw`, or an awaited promise that
rejects with `e`). -/
def reject {α : Type} (e : JsError) : Exec α :=
  fun s => { result := .error e, state := s, events := [] }

/-- JavaScript `try { body } catch (error) { handler } finally { fin }`: the
handler runs only when the body throws, `fin` runs on every path, and the
statement completes abruptly only when the handler or `fin` throws. -/
def tryCatchFinally (body : Exec Unit) (handler : JsError → Exec Unit)
    (fin : Exec Unit) : Exec Unit :=
  fun s =>
    let r1 := body s
    let r2 : Outcome Unit :=
      match r1.result with
      | .ok _ => r1
      | .error e =>
        let rc := handler e r1.state
        { result := rc.result, state := rc.state, events := r1.events ++ rc.events }
    let r3 := fin r2.state
    match r3.result with
    | .ok _ => { result := r2.result, state := r3.state, events := r2.events ++ r3.events }
    | .error e => { result := .error e, state := r3.state, events := r2.events ++ r3.events }

/-! ## Runtime primitives used by the handlers -/

/-- Read the module variable `ready`. -/
def getReady : Exec Bool :=
  fun s => { result := .ok s.ready, state := s, events := [] }

/-- Assign the module variable `ready`. -/
def setReady (b : Bool) : Exec Unit :=
  fun s => { result := .ok (), state := { s with ready := b }, events := [] }

/-- Call `res.status(status).send(text)`. -/
def resSend (status : Nat) (text : String) : Exec Unit :=
  emit (.send { status := status, body := .text text })

/-- Call `res.status(status).json(obj)`. -/
def resJson (status : Nat) (fields : List (String × JsonValue)) : Exec Unit :=
  emit (.send { status := status, body := .json fields })

/-- Call `setTimeout(callback, delayMs)`: schedules a timer under a fresh id
and returns the id.  The only callback in the program is
`() => controller.abort()`. -/
def setTimeout (delayMs : Nat) : Exec Nat :=
  fun s =>
    { result := .ok s.nextTimer
      state := { s with timers := s.nextTimer :: s.timers, nextTimer := s.nextTimer + 1 }
      events := [.setTimeout s.nextTimer delayMs] }

/-- Call `clearTimeout(id)`: the timer is no longer scheduled; clearing a timer
that has fired already changes nothing. -/
def clearTimeout (id : Nat) : Exec Unit :=
  fun s =>
    { result := .ok ()
      state := { s with timers := s.timers.filter (fun t => t != id) }
      events := [.clearTimeout id] }

/-- The event loop runs the timer `id` while the handler is suspended: a timer
that is still scheduled is removed from the table and its callback
(`controller.abort()`) runs. -/
def fireTimer (id : Nat) : Exec Unit :=
  fun s =>
    if id ∈ s.timers then
      { result := .ok ()
        state := { s with timers := s.timers.filter (fun t => t != id) }
        events := [.abort id] }
    else { result := .ok (), state := s, events := [] }

/-- The part of a fetch `Response` the handler reads. -/
structure Upstream where
  status : Nat
  deriving DecidableEq, Repr

/-- Getter `Response.ok` of the Fetch standard: the status is an ok status, that
is, in the range 200 to 299 inclusive. -/
def Upstream.ok (u : Upstream) : Bool := decide (200 ≤ u.status) && decide (u.status ≤ 299)

/-- How the promise returned by `fetch` settles. -/
inductive Settled where
  | fulfilled (status : Nat)
  | rejected (message : String)
  deriving DecidableEq, Repr

/-- What happens while the handler is suspended at `await fetch(...)`: whether
the cancellation timer fires in the meantime, and how the promise settles.  A
timer that fires aborts the call, which then rejects; the two components are
kept independent here, which only adds behaviours. -/
structure Await where
  timerFires : Bool
  settles : Settled
  deriving DecidableEq, Repr

/-- Evaluate `await fetch(url, { signal: controller.signal, headers })` where
`timer` is the timer whose callback aborts `controller`. -/
def awaitFetch (w : Await) (timer : Nat) (url : String)
    (headers : List (String × String)) : Exec Upstream := do
  emit (.fetch url headers)
  if w.timerFires then fireTimer timer
  match w.settles with
  | .fulfilled status => pure { status := status }
  | .rejected message => reject { message := message }

/-- An incoming request: its headers as Node presents them, names in lower
case, one entry per name. -/
structure Incoming where
  headers : List (String × String)
  deriving DecidableEq, Repr

/-- Express `req.header(name)`: the value stored under `name`, `undefined`
(`none`) when the request has no such header. -/
def Incoming.header (req : Incoming) (name : String) : Option String :=
  req.headers.lookup name

/-- JavaScript `a || b` for `a` a string or `undefined`: `a` when it is truthy,
that is, a non-empty string; `b` otherwise. -/
def orElse (a : Option String) (b : String) : String :=
  match a with
  | some v => if v = "" then b else v
  | none => b

/-- Number-to-string conversion of a template literal, for a non-negative
integer below `10 ^ 21`, where JavaScript prints plain decimal digits.  Every
value of `Date.now()` is in that range (see `maxTimeValue`). -/
def numberToString (n : Nat) : String := (Nat.toDigits 10 n).asString

/-- Largest time value of ECMAScript, in milliseconds since the epoch;
`Date.now()` never exceeds it. -/
def maxTimeValue : Nat := 8640000000000000

/-- The template literal `local-${Date.now()}` when `Date.now()` returns `now`. -/
def localId (now : Nat) : String := "local-" ++ numberToString now

/-! ## Route handlers -/

/-- Handler of `GET /` (lines 10-17); `isoNow` is `new Date().toISOString()`. -/
def root (isoNow : String) : Exec Unit := do
  emit (.consoleLog "LOCAL HIT")
  resJson 200
    [("message", .str "hello world from k8s-demo"),
     ("service", .str "k8s-demo-hello-world"),
     ("timestamp", .str isoNow)]

/-- Handler of `GET /healthz` (lines 19-21). -/
def healthz : Exec Unit :=
  resSend 200 "ok"

/-- Handler of `GET /readyz` (lines 23-28). -/
def readyz : Exec Unit := do
  let ready ← getReady
  if !ready then
    resSend 503 "not ready"
  else
    resSend 200 "ready"

/-- Handler of `GET /downstream-check` (lines 30-56); `now` is what
`Date.now()` returns and `w` what happens during the `await`. -/
def downstreamCheck (cfg : Config) (req : Incoming) (now : Nat) (w : Await) : Exec Unit := do
  let timeout ← setTimeout cfg.downstreamTimeoutMs
  tryCatchFinally
    (do
      let upstream ← awaitFetch w timeout cfg.downstreamUrl
        [("x-request-id", orElse (req.header "x-request-id") (localId now))]
      resJson 200
        [("ok", .bool upstream.ok),
         ("upstreamStatus", .num upstream.status),
         ("downstreamUrl", .str cfg.downstreamUrl)])
    (fun error =>
      resJson 503
        [("ok", .bool false),
         ("error", .str error.message),
         ("downstreamUrl", .str cfg.downstreamUrl)])
    (clearTimeout timeout)

/-- Handler of `POST /toggle-ready` (lines 59-62). -/
def toggleReady : Exec Unit := do
  let ready ← getReady
  setReady (!ready)
  let ready ← getReady
  resJson 200 [("ready", .bool ready)]

/-! ## The server as a transition system -/

/-- A request to one of the five registered routes, with what the environment
contributes while it is handled. -/
inductive Request where
  | getRoot (isoNow : String)
  | getHealthz
  | getReadyz
  | getDownstreamCheck (req : Incoming) (now : Nat) (w : Await)
  | postToggleReady
  deriving DecidableEq, Repr

/-- Route table (lines 10, 19, 23, 30, 59). -/
def handle (cfg : Config) : Request → Exec Unit
  | .getRoot isoNow => root isoNow
  | .getHealthz => healthz
  | .getReadyz => readyz
  | .getDownstreamCheck req now w => downstreamCheck cfg req now w
  | .postToggleReady => toggleReady

/-- Process state after one request has been handled. -/
def serve (cfg : Config) (s : Process) (r : Request) : Process :=
  (handle cfg r s).state

/-- Process state after a sequence of requests, handled in order. -/
def serveAll (cfg : Config) (s : Process) (rs : List Request) : Process :=
  rs.foldl (serve cfg) s

/-! ## Observations on a run -/

/-- The responses sent on `res`. -/
def responses (events : List Event) : List Response :=
  events.filterMap fun e =>
    match e with
    | .send r => some r
    | _ => none

/-- The outbound calls: url and headers of every `fetch`. -/
def outbound (events : List Event) : List (String × List (String × String)) :=
  events.filterMap fun e =>
    match e with
    | .fetch url headers => some (url, headers)
    | _ => none

/-- The handler ran to completion: nothing was thrown out of it. -/
def Outcome.completed {α : Type} (r : Outcome α) : Bool :=
  match r.result with
  | .ok _ => true
  | .error _ => false

/-- Number of `POST /toggle-ready` requests in a sequence. -/
def toggles (rs : List Request) : Nat :=
  rs.countP fun r =>
    match r with
    | .postToggleReady => true
    | _ => false

/-- Value of a string of decimal digits, most significant first. -/
def decimalValue (cs : List Char) : Nat :=
  cs.foldl (fun acc c => 10 * acc + (c.toNat - 48)) 0

/-- The configuration with the defaults of lines 5-6. -/
def demoCfg : Config :=
  { downstreamUrl := "https://httpbin.org/status/200", downstreamTimeoutMs := 1500 }

/-! ## Unfolding lemmas -/

theorem bind_run {α β : Type} (m : Exec α) (f : α → Exec β) (s : Process) :
    (m >>= f) s = Exec.bind m f s := rfl

theorem pure_run {α : Type} (a : α) (s : Process) :
    (Pure.pure a : Exec α) s = Exec.pure a s := rfl

theorem readyz_run (s : Process) :
    readyz s =
      { result := .ok (), state := s,
        events := [.send (if s.ready then ⟨200, .text "ready"⟩ else ⟨503, .text "not ready"⟩)] } := by
  cases s with
  | mk ready timers nextTimer => cases ready <;> rfl

theorem toggleReady_run (s : Process) :
    toggleReady s =
      { result := .ok (), state := { s with ready := !s.ready },
        events := [.send ⟨200, .json [("ready", .bool (!s.ready))]⟩] } := rfl

theorem downstreamCheck_fulfilled (cfg : Config) (req : Incoming) (now : Nat) (fires : Bool)
    (status : Nat) (s : Process) :
    downstreamCheck cfg req now ⟨fires, .fulfilled status⟩ s =
      { result := .ok ()
        state := { s with timers := s.timers.filter (fun t => t != s.nextTimer),
                          nextTimer := s.nextTimer + 1 }
        events :=
          [.setTimeout s.nextTimer cfg.downstreamTimeoutMs,
           .fetch cfg.downstreamUrl
             [("x-request-id", orElse (req.header "x-request-id") (localId now))]] ++
          (if fires then [.abort s.nextTimer] else []) ++
          [.send ⟨200, .json [("ok", .bool (Upstream.ok ⟨status⟩)),
                              ("upstreamStatus", .num status),
                              ("downstreamUrl", .str cfg.downstreamUrl)]⟩,
           .clearTimeout s.nextTimer] } := by
  cases fires <;>
    simp [downstreamCheck, tryCatchFinally, awaitFetch, setTimeout, clearTimeout, fireTimer,
      emit, reject, resJson, bind_run, pure_run, Exec.bind, Exec.pure]

theorem downstreamCheck_rejected (cfg : Config) (req : Incoming) (now : Nat) (fires : Bool)
    (message : String) (s : Process) :
    downstreamCheck cfg req now ⟨fires, .rejected message⟩ s =
      { result := .ok ()
        state := { s with timers := s.timers.filter (fun t => t != s.nextTimer),
                          nextTimer := s.nextTimer + 1 }
        events :=
          [.setTimeout s.nextTimer cfg.downstreamTimeoutMs,
           .fetch cfg.downstreamUrl
             [("x-request-id", orElse (req.header "x-request-id") (localId now))]] ++
          (if fires then [.abort s.nextTimer] else []) ++
          [.send ⟨503, .json [("ok", .bool false),
                              ("error", .str message),
                              ("downstreamUrl", .str cfg.downstreamUrl)]⟩,
           .clearTimeout s.nextTimer] } := by
  cases fires <;>
    simp [downstreamCheck, tryCatchFinally, awaitFetch, setTimeout, clearTimeout, fireTimer,
      emit, reject, resJson, bind_run, pure_run, Exec.bind, Exec.pure]

theorem downstreamCheck_outbound (cfg : Config) (req : Incoming) (now : Nat) (w : Await)
    (s : Process) :
    outbound (downstreamCheck cfg req now w s).events =
      [(cfg.downstreamUrl,
        [("x-request-id", orElse (req.header "x-request-id") (localId now))])] := by
  obtain ⟨fires, settles⟩ := w
  cases settles with
  | fulfilled status =>
    rw [downstreamCheck_fulfilled]; cases fires <;> simp [outbound]
  | rejected message =>
    rw [downstreamCheck_rejected]; cases fires <;> simp [outbound]

theorem downstreamCheck_state (cfg : Config) (req : Incoming) (now : Nat) (w : Await)
    (s : Process) :
    (downstreamCheck cfg req now w s).state =
      { s with timers := s.timers.filter (fun t => t != s.nextTimer),
               nextTimer := s.nextTimer + 1 } := by
  obtain ⟨fires, settles⟩ := w
  cases settles with
  | fulfilled status => rw [downstreamCheck_fulfilled]
  | rejected message => rw [downstreamCheck_rejected]

/-! ## Decimal digits -/

theorem digitChar_isDigit (d : Nat) (h : d < 10) : (Nat.digitChar d).isDigit = true := by
  interval_cases d <;> rfl

theorem digitChar_value (d : Nat) (h : d < 10) : (Nat.digitChar d).toNat - 48 = d := by
  interval_cases d <;> rfl

theorem digitChar_zero (d : Nat) (h : d < 10) (hz : Nat.digitChar d = '0') : d = 0 := by
  interval_cases d <;> first | rfl | (exact absurd hz (by decide))

theorem decimalValue_snoc (ps : List Char) (c : Char) :
    decimalValue (ps ++ [c]) = 10 * decimalValue ps + (c.toNat - 48) := by
  simp [decimalValue, List.foldl_append]

theorem toDigitsCore_spec : ∀ (fuel n : Nat) (ds : List Char), n < fuel →
    ∃ ps : List Char, Nat.toDigitsCore 10 fuel n ds = ps ++ ds ∧ ps ≠ [] ∧
      (∀ c ∈ ps, c.isDigit = true) ∧ decimalValue ps = n ∧
      (ps.head? = some '0' → n = 0) := by
  intro fuel
  induction fuel with
  | zero => intro n ds h; omega
  | succ fuel ih =>
    intro n ds h
    have hmod : n % 10 < 10 := Nat.mod_lt _ (by decide)
    by_cases hq : n / 10 = 0
    · have hn : n < 10 := by omega
      have hmn : n % 10 = n := Nat.mod_eq_of_lt hn
      refine ⟨[Nat.digitChar (n % 10)], ?_, by simp, ?_, ?_, ?_⟩
      · simp [Nat.toDigitsCore, hq]
      · intro c hc
        simp only [List.mem_singleton] at hc
        rw [hc]; exact digitChar_isDigit _ hmod
      · simp only [decimalValue, List.foldl_cons, List.foldl_nil]
        rw [digitChar_value _ hmod]; omega
      · intro hz
        simp only [List.head?_cons, Option.some.injEq] at hz
        rw [hmn] at hz
        exact digitChar_zero n hn hz
    · have hlt : n / 10 < fuel := by omega
      obtain ⟨ps, hps, hne, hdig, hval, _⟩ := ih (n / 10) (Nat.digitChar (n % 10) :: ds) hlt
      refine ⟨ps ++ [Nat.digitChar (n % 10)], ?_, by simp, ?_, ?_, ?_⟩
      · simp [Nat.toDigitsCore, hq, hps]
      · intro c hc
        rcases List.mem_append.mp hc with h1 | h1
        · exact hdig c h1
        · simp only [List.mem_singleton] at h1
          rw [h1]; exact digitChar_isDigit _ hmod
      · rw [decimalValue_snoc, hval, digitChar_value _ hmod]; omega
      · intro hz
        cases ps with
        | nil => exact absurd rfl hne
        | cons p ps =>
          rename_i hzero
          simp only [List.cons_append, List.head?_cons] at hz
          exact absurd (hzero (by simpa using hz)) hq

theorem numberToString_spec (n : Nat) :
    ∃ ds : List Char, numberToString n = String.mk ds ∧ ds ≠ [] ∧
      (∀ c ∈ ds, c.isDigit = true) ∧ decimalValue ds = n ∧
      (ds.head? = some '0' → n = 0) := by
  obtain ⟨ps, hps, hne, hdig, hval, hz⟩ := toDigitsCore_spec (n + 1) n [] (Nat.lt_succ_self n)
  refine ⟨ps, ?_, hne, hdig, hval, hz⟩
  simp [numberToString, Nat.toDigits, hps, List.asString]

/-! ## State after a request -/

theorem serve_ready (cfg : Config) (s : Process) (r : Request) :
    (serve cfg s r).ready =
      (match r with
       | .postToggleReady => !s.ready
       | _ => s.ready) := by
  cases r with
  | getRoot isoNow => rfl
  | getHealthz => rfl
  | getReadyz => simp [serve, handle, readyz_run]
  | getDownstreamCheck req now w => simp [serve, handle, downstreamCheck_state]
  | postToggleReady => rfl

theorem serve_timers (cfg : Config) (s : Process) (r : Request) (h : s.timers = []) :
    (serve cfg s r).timers = [] := by
  cases r with
  | getRoot isoNow => exact h
  | getHealthz => exact h
  | getReadyz => simp [serve, handle, readyz_run, h]
  | getDownstreamCheck req now w => simp [serve, handle, downstreamCheck_state, h]
  | postToggleReady => exact h

theorem serveAll_timers (cfg : Config) (rs : List Request) :
    ∀ s : Process, s.timers = [] → (serveAll cfg s rs).timers = [] := by
  induction rs with
  | nil => intro s h; exact h
  | cons r rs ih => intro s h; exact ih (serve cfg s r) (serve_timers cfg s r h)

theorem serveAll_ready (cfg : Config) (rs : List Request) :
    ∀ s : Process,
      (serveAll cfg s rs).ready = (if toggles rs % 2 = 0 then s.ready else !s.ready) := by
  induction rs with
  | nil => intro s; simp [serveAll, toggles]
  | cons r rs ih =>
    intro s
    have hstep : serveAll cfg s (r :: rs) = serveAll cfg (serve cfg s r) rs := rfl
    rw [hstep, ih, serve_ready]
    cases r <;> simp [toggles, List.countP_cons]
    rcases Nat.mod_two_eq_zero_or_one (List.countP
      (fun r => match r with
        | .postToggleReady => true
        | _ => false) rs) with h | h
    · have h2 : (List.countP (fun r => match r with
        | .postToggleReady => true
        | _ => false) rs + 1) % 2 = 1 := by omega
      simp [h, h2]
    · have h2 : (List.countP (fun r => match r with
        | .postToggleReady => true
        | _ => false) rs + 1) % 2 = 0 := by omega
      simp [h, h2]

/-! ## The claims -/

/-- C1: for every value of the readiness flag, `GET /readyz` sends exactly one
response, 200 with body "ready" when the flag is true and 503 with body
"not ready" when it is false, completes normally, performs nothing else and
leaves the process state (the flag included) as it was. -/
theorem readyz_reflects_flag (s : Process) :
    (readyz s).completed = true ∧
    (readyz s).events =
      [.send (if s.ready = true then ⟨200, .text "ready"⟩ else ⟨503, .text "not ready"⟩)] ∧
    responses (readyz { s with ready := true }).events = [⟨200, .text "ready"⟩] ∧
    responses (readyz { s with ready := false }).events = [⟨503, .text "not ready"⟩] ∧
    (readyz s).state = s := by
  refine ⟨?_, ?_, ?_, ?_, ?_⟩ <;> simp [readyz_run, Outcome.completed, responses]

/-- C2: for every value b of the readiness flag, `POST /toggle-ready` sets the
flag to not b and sends status 200 with the JSON body {ready: not b}, the new
value of the flag. -/
theorem toggleReady_flips_and_reports (s : Process) :
    (toggleReady s).completed = true ∧
    (toggleReady s).state.ready = (!s.ready) ∧
    responses (toggleReady s).events =
      [⟨200, .json [("ready", .bool (toggleReady s).state.ready)]⟩] ∧
    responses (toggleReady s).events = [⟨200, .json [("ready", .bool (!s.ready))]⟩] := by
  refine ⟨?_, ?_, ?_, ?_⟩ <;> simp [toggleReady_run, Outcome.completed, responses]

/-- C3: if the outbound fetch of `GET /downstream-check` is fulfilled with a
response of status s, the handler completes normally and sends exactly one
response: status 200 with JSON {ok, upstreamStatus: s, downstreamUrl: the
configured url}, where ok is true exactly when 200 ≤ s ≤ 299. -/
theorem downstreamCheck_reports_upstream (cfg : Config) (req : Incoming) (now : Nat)
    (fires : Bool) (status : Nat) (s : Process) :
    (downstreamCheck cfg req now ⟨fires, .fulfilled status⟩ s).completed = true ∧
    responses (downstreamCheck cfg req now ⟨fires, .fulfilled status⟩ s).events =
      [⟨200, .json [("ok", .bool (decide (200 ≤ status ∧ status ≤ 299))),
                    ("upstreamStatus", .num status),
                    ("downstreamUrl", .str cfg.downstreamUrl)]⟩] := by
  rw [downstreamCheck_fulfilled]
  cases fires <;> simp [Outcome.completed, responses, Upstream.ok]

/-- C4: if the outbound fetch of `GET /downstream-check` rejects with an error
of message m, the handler catches it: it completes normally (nothing is thrown
out of it) and sends exactly one response, status 503 with JSON
{ok: false, error: m, downstreamUrl: the configured url}. -/
theorem downstreamCheck_catches_failure (cfg : Config) (req : Incoming) (now : Nat)
    (fires : Bool) (message : String) (s : Process) :
    (downstreamCheck cfg req now ⟨fires, .rejected message⟩ s).completed = true ∧
    responses (downstreamCheck cfg req now ⟨fires, .rejected message⟩ s).events =
      [⟨503, .json [("ok", .bool false),
                    ("error", .str message),
                    ("downstreamUrl", .str cfg.downstreamUrl)]⟩] := by
  rw [downstreamCheck_rejected]
  cases fires <;> simp [Outcome.completed, responses]

/-- C5, as stated, fails: it is not the case that every `x-request-id` value v
of the incoming request, the empty string included, is the value of the
outbound header.  A request whose header is empty, handled at time
1700000000000, goes out with `local-1700000000000`. -/
theorem requestId_empty_not_forwarded :
    outbound (downstreamCheck demoCfg ⟨[("x-request-id", "")]⟩ 1700000000000
        ⟨false, .fulfilled 200⟩ start).events =
      [("https://httpbin.org/status/200", [("x-request-id", "local-1700000000000")])] ∧
    ¬ (∀ (cfg : Config) (req : Incoming) (now : Nat) (w : Await) (s : Process) (v : String),
        req.header "x-request-id" = some v →
        outbound (downstreamCheck cfg req now w s).events =
          [(cfg.downstreamUrl, [("x-request-id", v)])]) := by
  refine ⟨by rw [downstreamCheck_outbound]; decide, ?_⟩
  intro h
  have h1 := h demoCfg ⟨[("x-request-id", "")]⟩ 1700000000000 ⟨false, .fulfilled 200⟩ start ""
    (by decide)
  rw [downstreamCheck_outbound] at h1
  revert h1
  decide

/-- C5, amended: when the incoming request carries an `x-request-id` header
with a non-empty value v, the handler makes exactly one outbound call, to the
configured url, whose `x-request-id` header is exactly v. -/
theorem requestId_forwarded_verbatim (cfg : Config) (req : Incoming) (now : Nat) (w : Await)
    (s : Process) (v : String) (hv : req.header "x-request-id" = some v) (hne : v ≠ "") :
    outbound (downstreamCheck cfg req now w s).events =
      [(cfg.downstreamUrl, [("x-request-id", v)])] := by
  rw [downstreamCheck_outbound, hv]
  simp [orElse, hne]

/-- Witness of C5 amended: the header value `req-42` is forwarded as it is. -/
theorem requestId_forwarded_verbatim_witness :
    outbound (downstreamCheck demoCfg ⟨[("x-request-id", "req-42")]⟩ 1700000000000
        ⟨false, .fulfilled 200⟩ start).events =
      [("https://httpbin.org/status/200", [("x-request-id", "req-42")])] :=
  requestId_forwarded_verbatim demoCfg ⟨[("x-request-id", "req-42")]⟩ 1700000000000
    ⟨false, .fulfilled 200⟩ start "req-42" (by decide) (by decide)

/-- C6: when the incoming request has no `x-request-id` header and `Date.now()`
returns t (a time value, so at most `maxTimeValue`), the one outbound call
carries the header `local-` followed by the decimal representation of t: a
non-empty string of decimal digits whose value is t, without a leading zero
unless t is 0. -/
theorem requestId_synthesized (cfg : Config) (req : Incoming) (t : Nat) (w : Await)
    (s : Process) (hnone : req.header "x-request-id" = none) (_ht : t ≤ maxTimeValue) :
    ∃ ds : List Char, ds ≠ [] ∧ (∀ c ∈ ds, c.isDigit = true) ∧ decimalValue ds = t ∧
      (ds.head? = some '0' → t = 0) ∧
      outbound (downstreamCheck cfg req t w s).events =
        [(cfg.downstreamUrl, [("x-request-id", "local-" ++ String.mk ds)])] := by
  obtain ⟨ds, hds, hne, hdig, hval, hz⟩ := numberToString_spec t
  refine ⟨ds, hne, hdig, hval, hz, ?_⟩
  rw [downstreamCheck_outbound, hnone]
  simp [orElse, localId, hds]

/-- Witness of C6: a request without headers, handled at time 1700000000000. -/
theorem requestId_synthesized_witness :
    ∃ ds : List Char, ds ≠ [] ∧ (∀ c ∈ ds, c.isDigit = true) ∧
      decimalValue ds = 1700000000000 ∧ (ds.head? = some '0' → 1700000000000 = 0) ∧
      outbound (downstreamCheck demoCfg ⟨[]⟩ 1700000000000 ⟨false, .fulfilled 200⟩ start).events =
        [(demoCfg.downstreamUrl, [("x-request-id", "local-" ++ String.mk ds)])] :=
  requestId_synthesized demoCfg ⟨[]⟩ 1700000000000 ⟨false, .fulfilled 200⟩ start rfl (by decide)

/-- C7: in every process state, and in particular in the state reached after
any sequence of requests, `GET /healthz` sends exactly one response, status 200
with body "ok", and neither reads nor changes the readiness flag. -/
theorem healthz_always_ok (cfg : Config) (s : Process) (rs : List Request) :
    (healthz s).completed = true ∧
    responses (healthz s).events = [⟨200, .text "ok"⟩] ∧
    (healthz s).state = s ∧
    responses (handle cfg .getHealthz (serveAll cfg start rs)).events = [⟨200, .text "ok"⟩] ∧
    responses (healthz { s with ready := true }).events =
      responses (healthz { s with ready := false }).events := by
  refine ⟨rfl, rfl, rfl, rfl, rfl⟩

/-- C8: two consecutive `POST /toggle-ready` requests restore the process state,
so the flag is b again; the first response reports {ready: not b} and the
second {ready: b}. -/
theorem toggleReady_twice_restores (s : Process) :
    (toggleReady (toggleReady s).state).state = s ∧
    (toggleReady (toggleReady s).state).state.ready = s.ready ∧
    responses (toggleReady s).events = [⟨200, .json [("ready", .bool (!s.ready))]⟩] ∧
    responses (toggleReady (toggleReady s).state).events =
      [⟨200, .json [("ready", .bool s.ready)]⟩] := by
  refine ⟨?_, ?_, ?_, ?_⟩ <;> simp [toggleReady_run, responses]

/-- C9: the flag starts as true; `GET /`, `GET /healthz`, `GET /readyz` and
`GET /downstream-check` (however the downstream call settles) leave it as it
was; and after any sequence of requests it is true exactly when the number of
`POST /toggle-ready` requests in the sequence is even. -/
theorem ready_changed_only_by_toggle (cfg : Config) (s : Process) (isoNow : String)
    (req : Incoming) (now : Nat) (w : Await) (rs : List Request) :
    start.ready = true ∧
    (serve cfg s (.getRoot isoNow)).ready = s.ready ∧
    (serve cfg s .getHealthz).ready = s.ready ∧
    (serve cfg s .getReadyz).ready = s.ready ∧
    (serve cfg s (.getDownstreamCheck req now w)).ready = s.ready ∧
    ((serveAll cfg start rs).ready = true ↔ Even (toggles rs)) := by
  refine ⟨rfl, serve_ready cfg s _, serve_ready cfg s _, serve_ready cfg s _,
    serve_ready cfg s _, ?_⟩
  rw [serveAll_ready, Nat.even_iff]
  by_cases h : toggles rs % 2 = 0 <;> simp [h, start]

/-- C10: on every path of `GET /downstream-check` (fetch fulfilled or rejected,
timer fired or not) the handler first schedules the cancellation timer and
last clears it, the timer is not scheduled any more when the handler
completes, no timer is left scheduled that was not before (none at all in a
state reached from the start), and exactly one outbound call is made. -/
theorem downstreamCheck_clears_timer (cfg : Config) (req : Incoming) (now : Nat) (w : Await)
    (s : Process) (rs : List Request) :
    (downstreamCheck cfg req now w s).completed = true ∧
    (downstreamCheck cfg req now w s).events.head? =
      some (.setTimeout s.nextTimer cfg.downstreamTimeoutMs) ∧
    (downstreamCheck cfg req now w s).events.getLast? = some (.clearTimeout s.nextTimer) ∧
    s.nextTimer ∉ (downstreamCheck cfg req now w s).state.timers ∧
    (downstreamCheck cfg req now w s).state.timers =
      s.timers.filter (fun t => t != s.nextTimer) ∧
    (serve cfg (serveAll cfg start rs) (.getDownstreamCheck req now w)).timers = [] ∧
    (outbound (downstreamCheck cfg req now w s).events).length = 1 := by
  refine ⟨?_, ?_, ?_, ?_, ?_, ?_, ?_⟩
  · obtain ⟨fires, settles⟩ := w
    cases settles with
    | fulfilled status => rw [downstreamCheck_fulfilled]; rfl
    | rejected message => rw [downstreamCheck_rejected]; rfl
  · obtain ⟨fires, settles⟩ := w
    cases settles with
    | fulfilled status => rw [downstreamCheck_fulfilled]; rfl
    | rejected message => rw [downstreamCheck_rejected]; rfl
  · obtain ⟨fires, settles⟩ := w
    cases settles with
    | fulfilled status => rw [downstreamCheck_fulfilled]; cases fires <;> simp
    | rejected message => rw [downstreamCheck_rejected]; cases fires <;> simp
  · rw [downstreamCheck_state]; simp
  · rw [downstreamCheck_state]
  · exact serve_timers cfg _ _ (serveAll_timers cfg rs start rfl)
  · rw [downstreamCheck_outbound]; rfl

end K8sDemo
